import Mathlib

/-!
Shallow embedding of the authentication and session-token subsystem of the
jif-tube-back repository: `app/core/security.py` (JWTHandler), `app/repositories/cache.py`
(CacheRepository), `app/repositories/users.py` (UsersRepository),
`app/services/auth_service.py` (AuthService) and `app/api/dependencies.py`
(route guards).

Modelling conventions:
* Time is a `Nat` of Unix seconds (`datetime.now(timezone.utc)`); the cache layer
  works in milliseconds (`int(time.time() * 1000)`), so callers multiply by 1000
  exactly where the Python does.
* A JWT is modelled as a `SignedToken`: the claim set the bearer presents
  (`claims`) together with the secret the signature was made with (`sigKey`) and
  the claim set the signature actually covers (`sigClaims`).  An honestly issued
  token has `sigClaims = claims`; tampering with the payload changes `claims`
  but not `sigClaims`; signing with another secret changes `sigKey`.  Signature
  verification succeeds exactly when `sigKey` equals the verifier secret and
  `sigClaims = claims` — the ideal-MAC reading of HMAC-SHA256 used by
  `jose.jwt.decode`.
* `uuid.uuid4()` and `datetime.now` are effects; their results (`jti` strings,
  `now` instants) are passed in as explicit arguments at the positions where the
  Python calls them.
* Python string ids: `User.id` is a UUID rendered as a string; `str()` applied
  to an already-string value is the identity.
* Python falsiness of strings (`if not username:`) is modelled explicitly: an
  optional string is truthy when it is `some s` with `s ≠ ""`.
-/

/-- JWT claim set as built by `JWTHandler.create_access_token` /
`create_refresh_token` and as returned by `jose.jwt.decode`.  Every claim a
token may carry in this codebase; `payload.get(k)` returning `None` for an
absent claim is an `Option`.  The `type` claim is spelled `typ` because `type`
is a Lean keyword. -/
structure Claims where
  sub : Option String
  user_id : Option String
  username : Option String
  scopes : List String
  exp : Option Nat
  iat : Option Nat
  jti : Option String
  typ : Option String
  deriving DecidableEq, Repr

/-- A JWT string, abstracted: the payload the bearer presents plus the key and
payload actually covered by the HMAC signature (see module conventions). -/
structure SignedToken where
  claims : Claims
  sigKey : String
  sigClaims : Claims
  deriving DecidableEq, Repr

/-- Configuration of `JWTHandler.__init__` (secret, algorithm fixed to the
symmetric default, TTLs). The algorithm string plays no role in the ideal-MAC
model and is omitted. -/
structure JWTHandler where
  secret_key : String
  access_token_expire_minutes : Nat
  refresh_token_expire_days : Nat
  deriving DecidableEq, Repr

/-- Python truthiness for an optional string: `None` and `""` are falsy. -/
def strTruthy : Option String → Option String
  | none => none
  | some s => if s = "" then none else some s

namespace JWTHandler

/-- app/core/security.py `JWTHandler.create_access_token(user_id, username, scopes)`.
The payload sets `sub` and `user_id` to `str(user_id)`, carries `username`
verbatim (the call in `refresh_tokens` passes `payload.get("user_id")`, which can
be `None`, hence the `Option`), `exp = now + access_token_expire_minutes` and
`type = "access"`.  `now` and `jti` stand for `datetime.now` / `uuid4()`. -/
def create_access_token (h : JWTHandler) (user_id : String) (username : Option String)
    (scopes : List String) (now : Nat) (jti : String) : SignedToken :=
  let payload : Claims :=
    { sub := some user_id
      user_id := some user_id
      username := username
      scopes := scopes
      exp := some (now + h.access_token_expire_minutes * 60)
      iat := some now
      jti := some jti
      typ := some "access" }
  { claims := payload, sigKey := h.secret_key, sigClaims := payload }

/-- app/core/security.py `JWTHandler.create_refresh_token`: same claim shape,
`exp = now + refresh_token_expire_days` (days), `type = "refresh"`. -/
def create_refresh_token (h : JWTHandler) (user_id : String) (username : Option String)
    (scopes : List String) (now : Nat) (jti : String) : SignedToken :=
  let payload : Claims :=
    { sub := some user_id
      user_id := some user_id
      username := username
      scopes := scopes
      exp := some (now + h.refresh_token_expire_days * 86400)
      iat := some now
      jti := some jti
      typ := some "refresh" }
  { claims := payload, sigKey := h.secret_key, sigClaims := payload }

/-- app/core/security.py `JWTHandler.decode_token`: `jose.jwt.decode` verifies the
signature and the `exp` claim (expired when `exp < now`; a payload without
`exp` is accepted, jose does not require it); any `JWTError` becomes `None`. -/
def decode_token (h : JWTHandler) (token : SignedToken) (now : Nat) : Option Claims :=
  if token.sigKey = h.secret_key ∧ token.sigClaims = token.claims then
    match token.claims.exp with
    | some e => if e < now then none else some token.claims
    | none => some token.claims
  else none

/-- app/core/security.py `JWTHandler.extract_jti`: decode with
`options={"verify_exp": False}` — signature still verified, expiry ignored —
then `payload.get("jti")`. -/
def extract_jti (h : JWTHandler) (token : SignedToken) : Option String :=
  if token.sigKey = h.secret_key ∧ token.sigClaims = token.claims then
    token.claims.jti
  else none

/-- app/core/security.py `JWTHandler.get_token_ttl_minutes`. -/
def get_token_ttl_minutes (h : JWTHandler) (token_type : String) : Nat :=
  if token_type = "access" then h.access_token_expire_minutes
  else if token_type = "refresh" then h.refresh_token_expire_days * 24 * 60
  else 0

end JWTHandler

/-- app/models.py `CacheEntry` row: key, JSON data (here always
`{"revoked": true}`, modelled as a string-to-Bool association), epoch-ms
timestamp and TTL in minutes. -/
structure CacheEntry where
  cache_key : String
  data : List (String × Bool)
  timestamp : Nat
  ttl_minutes : Nat
  deriving DecidableEq, Repr

/-- The `cache_entries` table; `cache_key` is the primary key. -/
abbrev CacheStore := List CacheEntry

namespace CacheRepository

/-- app/repositories/cache.py `CacheRepository.set`: UPSERT on `cache_key` with
`timestamp = int(time.time() * 1000)` (passed here as `now_ms`). -/
def set (store : CacheStore) (key : String) (data : List (String × Bool))
    (ttl_minutes : Nat) (now_ms : Nat) : CacheStore :=
  { cache_key := key, data := data, timestamp := now_ms, ttl_minutes := ttl_minutes } ::
    store.filter (fun e => ¬ (e.cache_key = key))

/-- app/repositories/cache.py `CacheRepository.invalidate`: delete the row with
this `cache_key`. -/
def invalidate (store : CacheStore) (key : String) : CacheStore :=
  store.filter (fun e => ¬ (e.cache_key = key))

/-- app/repositories/cache.py `CacheRepository.get`: primary-key lookup; absent
key → `None`; entry past `timestamp + ttl_minutes * 60 * 1000` → delete it and
return `None`; otherwise return its data.  Returns the possibly-mutated store. -/
def get (store : CacheStore) (key : String) (now_ms : Nat) :
    Option (List (String × Bool)) × CacheStore :=
  match store.find? (fun e => e.cache_key = key) with
  | none => (none, store)
  | some entry =>
      let expire_ms := entry.timestamp + entry.ttl_minutes * 60 * 1000
      if now_ms > expire_ms then (none, invalidate store key)
      else (some entry.data, store)

end CacheRepository

/-- app/models.py `User` row (the fields the auth subsystem reads). -/
structure User where
  id : String
  username : String
  email : String
  password_hash : String
  role : String
  is_active : Bool
  created_at : Nat
  deriving DecidableEq, Repr

/-- The `users` table. -/
abbrev UserStore := List User

namespace UsersRepository

/-- app/repositories/users.py `UsersRepository.get_by_email`. -/
def get_by_email (users : UserStore) (email : String) : Option User :=
  users.find? (fun u => u.email = email)

/-- app/repositories/users.py `UsersRepository.get_by_username`. -/
def get_by_username (users : UserStore) (username : String) : Option User :=
  users.find? (fun u => u.username = username)

end UsersRepository

/-- app/core/security.py `hash_password` via passlib.  The hash is modelled as a
tagged copy of the password: one-way-ness is not needed by any claim, while
`verify_password` matching exactly the passwords that hash to the stored value
is the correctness contract the service relies on. -/
def hash_password (password : String) : String :=
  "argon2$" ++ password

/-- app/core/security.py `verify_password`. -/
def verify_password (plain : String) (hashed : String) : Bool :=
  hash_password plain = hashed

/-- app/schemas/users.py `UserRead`: public projection of a user (no hash). -/
structure UserRead where
  id : String
  username : String
  email : String
  role : String
  is_active : Bool
  created_at : Nat
  deriving DecidableEq, Repr

/-- app/schemas/users.py `Token` response model. -/
structure Token where
  access_token : SignedToken
  refresh_token : SignedToken
  token_type : String
  expires_in : Nat
  deriving DecidableEq, Repr

/-- fastapi `HTTPException` outcomes raised by this subsystem, by status code. -/
inductive HErr where
  | unauthorized (detail : String)
  | forbidden (detail : String)
  | conflict (detail : String)
  deriving DecidableEq, Repr

/-- The mutable backing state an `AuthService` call can read and write: the
`users` table and the `cache_entries` table. -/
structure AppState where
  users : UserStore
  cache : CacheStore
  deriving DecidableEq, Repr

/-- Observable side effects of a service call, in execution order, used to
state ordering properties (revoke-before-issue). -/
inductive AuthEvent where
  | revokeMarkerWrite (jti : String)
  | tokenIssued (kind : String)
  deriving DecidableEq, Repr

namespace AuthService

/-- app/services/auth_service.py `AuthService._is_blacklisted`: a jti is
blacklisted when `cache.get("blacklist:" + jti)` is not `None`.  The read can
delete an expired row, so the store is threaded. -/
def is_blacklisted (cache : CacheStore) (jti : String) (now_ms : Nat) :
    Bool × CacheStore :=
  let r := CacheRepository.get cache ("blacklist:" ++ jti) now_ms
  (r.fst.isSome, r.snd)

/-- app/core/security.py `JWTHandler.verify_token`: decode, then check
`payload.get("type") == expected_type`, then the blacklist.  The only
`check_blacklist_fn` ever passed in this codebase is
`AuthService._is_blacklisted`, so it is inlined here with its cache store
threaded (its `CacheRepository.get` may delete an expired row).  The jti
check runs only when the claim is truthy (`if jti and check_blacklist_fn(jti)`). -/
def verify_token (h : JWTHandler) (token : SignedToken) (expected_type : String)
    (now : Nat) (cache : CacheStore) : Option Claims × CacheStore :=
  match h.decode_token token now with
  | none => (none, cache)
  | some payload =>
      if payload.typ = some expected_type then
        match strTruthy payload.jti with
        | some jti =>
            let r := is_blacklisted cache jti (now * 1000)
            (if r.fst then none else some payload, r.snd)
        | none => (some payload, cache)
      else (none, cache)

/-- app/services/auth_service.py `AuthService._blacklist_token`: extract the jti
ignoring expiry; if falsy, do nothing; else upsert
`blacklist:{jti} ↦ {"revoked": true}` with TTL `get_token_ttl_minutes(type) + 60`
minutes.  Also returns the revocation event written, for ordering statements. -/
def blacklist_token (h : JWTHandler) (s : AppState) (token : SignedToken)
    (token_type : String) (now : Nat) : AppState × List AuthEvent :=
  match strTruthy (h.extract_jti token) with
  | none => (s, [])
  | some jti =>
      let ttl_minutes := h.get_token_ttl_minutes token_type + 60
      let cache := CacheRepository.set s.cache ("blacklist:" ++ jti)
        [("revoked", true)] ttl_minutes (now * 1000)
      ({ s with cache := cache }, [AuthEvent.revokeMarkerWrite jti])

/-- app/services/auth_service.py `AuthService.register`: 409 on duplicate email,
then 409 on duplicate username, else create the user (role "user", active).
`uid` stands for the `uuid4()` primary-key default. -/
def register (s : AppState) (username email password : String) (uid : String)
    (now : Nat) : Except HErr UserRead × AppState :=
  if (UsersRepository.get_by_email s.users email).isSome then
    (.error (.conflict "Email already registered"), s)
  else if (UsersRepository.get_by_username s.users username).isSome then
    (.error (.conflict "Username already taken"), s)
  else
    let user : User :=
      { id := uid, username := username, email := email
        password_hash := hash_password password, role := "user"
        is_active := true, created_at := now }
    (.ok { id := user.id, username := user.username, email := user.email
           role := user.role, is_active := user.is_active
           created_at := user.created_at },
     { s with users := s.users ++ [user] })

/-- Lookup used by `authenticate`: `get_by_email(x) or get_by_username(x)`. -/
def lookup_user (users : UserStore) (username_or_email : String) : Option User :=
  match UsersRepository.get_by_email users username_or_email with
  | some u => some u
  | none => UsersRepository.get_by_username users username_or_email

/-- app/services/auth_service.py `AuthService.authenticate`: look the user up by
email or username; 401 on no match or password mismatch; 403 if inactive; else
issue the pair.  The token-issuing calls are transcribed exactly as written:
`create_access_token(user.username, user.id, [user.role])` and
`create_refresh_token(user.username, user.id)` — i.e. `user.username` lands in
the `user_id` parameter and `user.id` in the `username` parameter.
`jti_access` / `jti_refresh` stand for the two `uuid4()` draws. -/
def authenticate (h : JWTHandler) (s : AppState) (username_or_email password : String)
    (now : Nat) (jti_access jti_refresh : String) : Except HErr Token × AppState :=
  match lookup_user s.users username_or_email with
  | none => (.error (.unauthorized "Incorrect username/email or password"), s)
  | some user =>
      if ¬ verify_password password user.password_hash then
        (.error (.unauthorized "Incorrect username/email or password"), s)
      else if ¬ user.is_active then
        (.error (.forbidden "Inactive user"), s)
      else
        let access := h.create_access_token user.username (some user.id) [user.role]
          now jti_access
        let refresh := h.create_refresh_token user.username (some user.id) []
          now jti_refresh
        (.ok { access_token := access, refresh_token := refresh
               token_type := "bearer"
               expires_in := h.access_token_expire_minutes * 60 }, s)

deriving instance DecidableEq for Except

/-- Result of `refresh_tokens`: outcome, post-state, and side effects in
execution order. -/
structure RefreshOut where
  result : Except HErr Token
  state : AppState
  events : List AuthEvent
  deriving DecidableEq, Repr

/-- app/services/auth_service.py `AuthService.refresh_tokens`: verify as
"refresh" with blacklist check (401 if invalid); 401 if `sub` falsy; re-resolve
the user by `get_by_username(sub)` (403 if missing or inactive); blacklist the
presented token; then issue the new pair from `sub` and the old payload's
`user_id`.  `jti_access` / `jti_refresh` are the fresh `uuid4()` draws for the
new pair. -/
def refresh_tokens (h : JWTHandler) (s : AppState) (refresh_token : SignedToken)
    (now : Nat) (jti_access jti_refresh : String) : RefreshOut :=
  let v := verify_token h refresh_token "refresh" now s.cache
  let s1 : AppState := { s with cache := v.snd }
  match v.fst with
  | none =>
      { result := .error (.unauthorized "Invalid or expired refresh token")
        state := s1, events := [] }
  | some payload =>
      match strTruthy payload.sub with
      | none =>
          { result := .error (.unauthorized "Invalid token payload")
            state := s1, events := [] }
      | some username =>
          match UsersRepository.get_by_username s1.users username with
          | none =>
              { result := .error (.forbidden "User not found or inactive")
                state := s1, events := [] }
          | some user =>
              if ¬ user.is_active then
                { result := .error (.forbidden "User not found or inactive")
                  state := s1, events := [] }
              else
                let b := blacklist_token h s1 refresh_token "refresh" now
                let new_access := h.create_access_token username payload.user_id
                  [user.role] now jti_access
                let new_refresh := h.create_refresh_token username payload.user_id
                  [] now jti_refresh
                { result := .ok { access_token := new_access
                                  refresh_token := new_refresh
                                  token_type := "bearer"
                                  expires_in := h.access_token_expire_minutes * 60 }
                  state := b.fst
                  events := b.snd ++ [AuthEvent.tokenIssued "access",
                    AuthEvent.tokenIssued "refresh"] }

/-- app/services/auth_service.py `AuthService.logout`: verify as "refresh" (401
if invalid), then blacklist. -/
def logout (h : JWTHandler) (s : AppState) (refresh_token : SignedToken)
    (now : Nat) : Except HErr Unit × AppState :=
  let v := verify_token h refresh_token "refresh" now s.cache
  let s1 : AppState := { s with cache := v.snd }
  match v.fst with
  | none => (.error (.unauthorized "Invalid refresh token"), s1)
  | some _ => (.ok (), (blacklist_token h s1 refresh_token "refresh" now).fst)

/-- app/services/auth_service.py `AuthService.verify_access_token`: verify as
"access" with blacklist check; 401 if invalid. -/
def verify_access_token (h : JWTHandler) (s : AppState) (access_token : SignedToken)
    (now : Nat) : Except HErr Claims × AppState :=
  let v := verify_token h access_token "access" now s.cache
  let s1 : AppState := { s with cache := v.snd }
  match v.fst with
  | none => (.error (.unauthorized "Invalid or expired access token"), s1)
  | some payload => (.ok payload, s1)

end AuthService

/-- Opening brace character, by code point. -/
def braceL : Char := Char.ofNat 123

/-- Closing brace character, by code point. -/
def braceR : Char := Char.ofNat 125

/-- Character class stripped by Python `str.strip(braces)`. -/
def isBraceChar (c : Char) : Bool := c = braceL || c = braceR

/-- ASCII hexadecimal digit. -/
def isHexDigitChar (c : Char) : Bool :=
  c.isDigit || (('a' ≤ c) && (c ≤ 'f')) || (('A' ≤ c) && (c ≤ 'F'))

/-- Numeric value of a hex digit. -/
def hexDigitVal (c : Char) : Nat :=
  if c.isDigit then c.toNat - 48
  else if ('a' ≤ c) && (c ≤ 'f') then c.toNat - 87
  else if ('A' ≤ c) && (c ≤ 'F') then c.toNat - 55
  else 0

/-- Hex digits continued: CPython `int(x, 16)` allows a single underscore only
between two digits. -/
def hexRest : List Char → Bool
  | [] => true
  | '_' :: cs =>
      match cs with
      | c :: cs2 => isHexDigitChar c && hexRest cs2
      | [] => false
  | c :: cs => isHexDigitChar c && hexRest cs

/-- CPython `int(x, 16)` acceptance on ASCII input: optional surrounding
whitespace, optional sign, optional `0x`/`0X` prefix (an underscore may follow
the prefix), then hex digits with single underscores between digits. -/
def pyIntHex16Ok (l : List Char) : Bool :=
  let l1 := ((l.dropWhile Char.isWhitespace).reverse.dropWhile Char.isWhitespace).reverse
  let l2 := match l1 with
    | '+' :: rest => rest
    | '-' :: rest => rest
    | _ => l1
  match l2 with
  | '0' :: 'x' :: rest =>
      (match rest with
       | '_' :: c :: cs => isHexDigitChar c && hexRest cs
       | c :: cs => isHexDigitChar c && hexRest cs
       | [] => false)
  | '0' :: 'X' :: rest =>
      (match rest with
       | '_' :: c :: cs => isHexDigitChar c && hexRest cs
       | c :: cs => isHexDigitChar c && hexRest cs
       | [] => false)
  | c :: cs => isHexDigitChar c && hexRest cs
  | [] => false

/-- Value of an accepted hex literal: every character that is not a hex digit
(sign, whitespace, underscore, the `x` of a prefix) contributes nothing, and the
`0` of a `0x` prefix is a leading zero, so folding over the digit characters
alone gives the parsed value. -/
def hexValueOf (l : List Char) : Nat :=
  l.foldl (fun acc c => if isHexDigitChar c then acc * 16 + hexDigitVal c else acc) 0

/-- Remove every occurrence of `pat` from the list, scanning left to right
without rescanning earlier output — the behaviour of Python
`str.replace(pat, "")`.  Fuel-structured (fuel bounds the input length) so it
evaluates by kernel reduction. -/
def removeSeqAux (pat : List Char) : Nat → List Char → List Char
  | _, [] => []
  | 0, l => l
  | fuel + 1, c :: cs =>
      if pat.isPrefixOf (c :: cs) && ¬ pat.isEmpty then
        removeSeqAux pat fuel (List.drop (pat.length - 1) cs)
      else c :: removeSeqAux pat fuel cs

/-- Python `str.replace(pat, "")`. -/
def removeSeq (pat : List Char) (l : List Char) : List Char :=
  removeSeqAux pat l.length l

/-- Python `uuid.UUID(hex=s)` on an ASCII string: drop every `urn:` and `uuid:`
occurrence, strip surrounding braces, remove every dash, require exactly 32
remaining characters, then parse them with `int(hex, 16)`.  Returns the 128-bit
value on success (the parsed value is always in range, so the constructor's
range check never fires on this path). -/
def pyUUID (s : String) : Option Nat :=
  let t := removeSeq "uuid:".data (removeSeq "urn:".data s.data)
  let l1 := ((t.dropWhile isBraceChar).reverse.dropWhile isBraceChar).reverse
  let hx := l1.filter (fun c => ¬ (c = '-'))
  if hx.length = 32 then
    if pyIntHex16Ok hx then some (hexValueOf hx) else none
  else none

namespace dependencies

/-- app/api/dependencies.py `_load_user_from_payload`: take
`payload.get("user_id") or payload.get("sub")` (Python `or`, so an empty-string
`user_id` falls through to `sub`); 401 if the result is falsy; 401 if
`UUID(str(raw))` raises; look the user up by id (UUID value equality); 401 if
absent. -/
def load_user_from_payload (users : UserStore) (payload : Claims) : Except HErr User :=
  let user_id_raw := match strTruthy payload.user_id with
    | some s => some s
    | none => strTruthy payload.sub
  match user_id_raw with
  | none => .error (.unauthorized "Invalid token payload: missing user_id")
  | some raw =>
      match pyUUID raw with
      | none => .error (.unauthorized "Invalid token: malformed user_id")
      | some v =>
          match users.find? (fun u => pyUUID u.id = some v) with
          | none => .error (.unauthorized "User not found")
          | some user => .ok user

/-- app/api/dependencies.py `get_current_user`: run
`AuthService.verify_access_token`; a 401 from it is re-raised as a bearer 401
with the same detail; on success resolve the user from the payload. -/
def get_current_user (h : JWTHandler) (s : AppState) (token : SignedToken)
    (now : Nat) : Except HErr User × AppState :=
  let r := AuthService.verify_access_token h s token now
  match r.fst with
  | .error (.unauthorized d) => (.error (.unauthorized d), r.snd)
  | .error e => (.error e, r.snd)
  | .ok payload => (load_user_from_payload r.snd.users payload, r.snd)

end dependencies

/-- Successful decode pins the token down: the signing key matches the
verifier's secret, the signed claims are the presented claims, and the payload
returned is the presented claim set. -/
theorem decode_token_some (h : JWTHandler) (t : SignedToken) (now : Nat) (p : Claims)
    (hp : h.decode_token t now = some p) :
    t.sigKey = h.secret_key ∧ t.sigClaims = t.claims ∧ p = t.claims := by
  unfold JWTHandler.decode_token at hp
  split at hp
  next hc =>
    refine ⟨hc.1, hc.2, ?_⟩
    split at hp
    next e heq =>
      split at hp
      next => exact absurd hp (by simp)
      next => exact (Option.some.inj hp).symm
    next => exact (Option.some.inj hp).symm
  next hc => exact absurd hp (by simp)

/-- Fixed handler configuration used by the concrete witnesses (secret, 30-min
access TTL, 7-day refresh TTL — the repository defaults). -/
def demoHandler : JWTHandler :=
  { secret_key := "server-secret", access_token_expire_minutes := 30
    refresh_token_expire_days := 7 }

/-- Concrete user id for the witnesses. -/
def aliceId : String := "11111111-1111-4111-8111-111111111111"

/-- Concrete registered active user. -/
def alice : User :=
  { id := aliceId, username := "alice", email := "alice@x.com"
    password_hash := hash_password "Str0ng!Pass", role := "user"
    is_active := true, created_at := 500 }

/-- Backing state holding `alice` and an empty cache. -/
def demoState : AppState := { users := [alice], cache := [] }

/-- An honestly issued refresh token for alice (as `authenticate` issues it:
username in the `user_id` slot, id in the `username` slot). -/
def honestRefreshTok : SignedToken :=
  demoHandler.create_refresh_token "alice" (some aliceId) [] 1000 "jti-r1"

/-- `honestRefreshTok` with one payload claim altered after signing. -/
def tamperedTok : SignedToken :=
  { claims := { honestRefreshTok.claims with sub := some "mallory" }
    sigKey := honestRefreshTok.sigKey
    sigClaims := honestRefreshTok.sigClaims }

/-- C4: a token not signed with the server's secret, or whose payload was
altered after signing, is rejected by `decode_token` and yields no jti from
`extract_jti`, at every time instant (so regardless of the token's claimed
expiry). -/
theorem forged_token_rejected (h : JWTHandler) (t : SignedToken) (now : Nat)
    (hforged : t.sigKey ≠ h.secret_key ∨ t.sigClaims ≠ t.claims) :
    h.decode_token t now = none ∧ h.extract_jti t = none := by
  have hc : ¬ (t.sigKey = h.secret_key ∧ t.sigClaims = t.claims) := by tauto
  unfold JWTHandler.decode_token JWTHandler.extract_jti
  rw [if_neg hc, if_neg hc]
  exact ⟨rfl, rfl⟩

/-- Witness for C4 at a concrete tampered token. -/
theorem forged_token_rejected_witness :
    (tamperedTok.sigKey ≠ demoHandler.secret_key ∨
      tamperedTok.sigClaims ≠ tamperedTok.claims) ∧
    demoHandler.decode_token tamperedTok 0 = none ∧
    demoHandler.extract_jti tamperedTok = none := by
  have hforged : tamperedTok.sigKey ≠ demoHandler.secret_key ∨
      tamperedTok.sigClaims ≠ tamperedTok.claims := Or.inr (by decide)
  exact ⟨hforged, forged_token_rejected demoHandler tamperedTok 0 hforged⟩

/-- C2 counter-evidence: `authenticate` calls
`create_access_token(user.username, user.id, ...)` against the signature
`create_access_token(user_id, username, scopes)`, so both issued tokens carry
the username in `sub` (and `user_id`) and the user's id in the `username`
claim — the opposite of the documented claim set; the `type` claims are the
requested kinds.  Evaluated at a concrete user whose id differs from their
username. -/
theorem authenticate_swaps_identity_claims :
    (AuthService.authenticate demoHandler demoState "alice@x.com" "Str0ng!Pass" 1000
        "jti-a1" "jti-r1").fst.map
      (fun tok => (tok.access_token.claims.sub, tok.access_token.claims.username,
        tok.access_token.claims.typ, tok.refresh_token.claims.sub,
        tok.refresh_token.claims.username, tok.refresh_token.claims.typ)) =
      .ok (some "alice", some aliceId, some "access",
        some "alice", some aliceId, some "refresh") ∧
    aliceId ≠ "alice" ∧ alice.id = aliceId ∧ alice.username = "alice" := by
  exact ⟨by rfl, by decide, rfl, rfl⟩

/-- C9: `CacheRepository.get` on a key whose entry's TTL has elapsed deletes the
row and returns `none`; a missing key or a live entry leaves the store
unchanged (returning `none` resp. the entry's data). -/
theorem cache_get_expiry_frame (store : CacheStore) (key : String) (now_ms : Nat) :
    (∀ e, store.find? (fun e2 => e2.cache_key = key) = some e →
        e.timestamp + e.ttl_minutes * 60 * 1000 < now_ms →
        CacheRepository.get store key now_ms =
          (none, CacheRepository.invalidate store key)) ∧
    (store.find? (fun e2 => e2.cache_key = key) = none →
        CacheRepository.get store key now_ms = (none, store)) ∧
    (∀ e, store.find? (fun e2 => e2.cache_key = key) = some e →
        ¬ (e.timestamp + e.ttl_minutes * 60 * 1000 < now_ms) →
        CacheRepository.get store key now_ms = (some e.data, store)) := by
  refine ⟨?_, ?_, ?_⟩
  · intro e hfind hexp
    unfold CacheRepository.get
    rw [hfind]
    simp only [gt_iff_lt, if_pos hexp]
  · intro hfind
    unfold CacheRepository.get
    rw [hfind]
  · intro e hfind hexp
    unfold CacheRepository.get
    rw [hfind]
    simp only [gt_iff_lt, if_neg hexp]

/-- Expired revocation-marker row used by the C9 witness. -/
def staleEntry : CacheEntry :=
  { cache_key := "blacklist:jti-r0", data := [("revoked", true)]
    timestamp := 1000, ttl_minutes := 1 }

/-- Witness for C9: reading the expired marker at a later instant removes the
row and returns `none`. -/
theorem cache_get_expiry_frame_witness :
    [staleEntry].find? (fun e2 => e2.cache_key = "blacklist:jti-r0") = some staleEntry ∧
    staleEntry.timestamp + staleEntry.ttl_minutes * 60 * 1000 < 99999999 ∧
    CacheRepository.get [staleEntry] "blacklist:jti-r0" 99999999 =
      (none, CacheRepository.invalidate [staleEntry] "blacklist:jti-r0") := by
  have hfind : [staleEntry].find? (fun e2 => e2.cache_key = "blacklist:jti-r0")
      = some staleEntry := by decide
  have hexp : staleEntry.timestamp + staleEntry.ttl_minutes * 60 * 1000 < 99999999 := by
    decide
  exact ⟨hfind, hexp,
    (cache_get_expiry_frame [staleEntry] "blacklist:jti-r0" 99999999).1 staleEntry
      hfind hexp⟩

/-- C8: registering with a username or an email an existing user already holds
fails with Conflict, and the backing state — every stored user included — is
returned unchanged. -/
theorem register_conflict (s : AppState) (username email password uid : String)
    (now : Nat)
    (hdup : (∃ u, u ∈ s.users ∧ u.email = email) ∨
      (∃ u, u ∈ s.users ∧ u.username = username)) :
    (∃ d, (AuthService.register s username email password uid now).fst =
        .error (.conflict d)) ∧
    (AuthService.register s username email password uid now).snd = s := by
  unfold AuthService.register
  by_cases he : (UsersRepository.get_by_email s.users email).isSome
  · rw [if_pos he]
    exact ⟨⟨_, rfl⟩, rfl⟩
  · have hu : (UsersRepository.get_by_username s.users username).isSome := by
      rcases hdup with ⟨u, hmem, hval⟩ | ⟨u, hmem, hval⟩
      · exact absurd (by
          unfold UsersRepository.get_by_email
          rw [List.find?_isSome]
          exact ⟨u, hmem, by simp [hval]⟩) he
      · unfold UsersRepository.get_by_username
        rw [List.find?_isSome]
        exact ⟨u, hmem, by simp [hval]⟩
    rw [if_neg he, if_pos hu]
    exact ⟨⟨_, rfl⟩, rfl⟩

/-- Witness for C8: re-registering alice's username with a fresh email is
rejected with Conflict and leaves the state unchanged. -/
theorem register_conflict_witness :
    ((∃ u, u ∈ demoState.users ∧ u.email = "new@x.com") ∨
      (∃ u, u ∈ demoState.users ∧ u.username = "alice")) ∧
    (∃ d, (AuthService.register demoState "alice" "new@x.com" "Oth3r!Pass" "uid-9"
        2000).fst = .error (.conflict d)) ∧
    (AuthService.register demoState "alice" "new@x.com" "Oth3r!Pass" "uid-9"
        2000).snd = demoState := by
  have hdup : (∃ u, u ∈ demoState.users ∧ u.email = "new@x.com") ∨
      (∃ u, u ∈ demoState.users ∧ u.username = "alice") :=
    Or.inr ⟨alice, by decide, rfl⟩
  exact ⟨hdup, register_conflict demoState "alice" "new@x.com" "Oth3r!Pass" "uid-9"
    2000 hdup⟩

/-- Verification with a mismatched expected type yields no payload and leaves
the cache untouched (the type check precedes the blacklist read). -/
theorem verify_token_wrong_type (h : JWTHandler) (t : SignedToken) (expected : String)
    (now : Nat) (cache : CacheStore)
    (htyp : t.claims.typ ≠ some expected) :
    AuthService.verify_token h t expected now cache = (none, cache) := by
  unfold AuthService.verify_token
  cases hd : h.decode_token t now with
  | none => rfl
  | some p =>
      obtain ⟨-, -, hp⟩ := decode_token_some h t now p hd
      subst hp
      simp [htyp]

/-- C7: a correctly signed, unexpired, unrevoked refresh-type token presented
to `verify_access_token`, and such an access-type token presented to
`refresh_tokens` or `logout`, all fail with Unauthorized. -/
theorem wrong_token_type_unauthorized (h : JWTHandler) (s : AppState)
    (tR tA : SignedToken) (now : Nat) (jA jR : String)
    (hsigR : tR.sigKey = h.secret_key) (hintR : tR.sigClaims = tR.claims)
    (htypR : tR.claims.typ = some "refresh")
    (hexpR : ∀ e, tR.claims.exp = some e → ¬ e < now)
    (hrevR : ∀ j, strTruthy tR.claims.jti = some j →
      (AuthService.is_blacklisted s.cache j (now * 1000)).fst = false)
    (hsigA : tA.sigKey = h.secret_key) (hintA : tA.sigClaims = tA.claims)
    (htypA : tA.claims.typ = some "access")
    (hexpA : ∀ e, tA.claims.exp = some e → ¬ e < now)
    (hrevA : ∀ j, strTruthy tA.claims.jti = some j →
      (AuthService.is_blacklisted s.cache j (now * 1000)).fst = false) :
    (AuthService.verify_access_token h s tR now).fst =
      .error (.unauthorized "Invalid or expired access token") ∧
    (AuthService.refresh_tokens h s tA now jA jR).result =
      .error (.unauthorized "Invalid or expired refresh token") ∧
    (AuthService.logout h s tA now).fst =
      .error (.unauthorized "Invalid refresh token") := by
  have hR : AuthService.verify_token h tR "access" now s.cache = (none, s.cache) :=
    verify_token_wrong_type h tR "access" now s.cache (by rw [htypR]; simp)
  have hA : AuthService.verify_token h tA "refresh" now s.cache = (none, s.cache) :=
    verify_token_wrong_type h tA "refresh" now s.cache (by rw [htypA]; simp)
  refine ⟨?_, ?_, ?_⟩
  · simp only [AuthService.verify_access_token, hR]
  · simp only [AuthService.refresh_tokens, hA]
  · simp only [AuthService.logout, hA]

/-- An honestly issued access token for alice (as `authenticate` issues it). -/
def demoAccessTok : SignedToken :=
  demoHandler.create_access_token "alice" (some aliceId) ["user"] 1000 "jti-a1"

/-- Witness for C7 with concrete valid tokens of each type at an instant where
both are unexpired and the cache is empty. -/
theorem wrong_token_type_unauthorized_witness :
    honestRefreshTok.claims.typ = some "refresh" ∧
    demoAccessTok.claims.typ = some "access" ∧
    (AuthService.verify_access_token demoHandler demoState honestRefreshTok 1200).fst =
      .error (.unauthorized "Invalid or expired access token") ∧
    (AuthService.refresh_tokens demoHandler demoState demoAccessTok 1200 "jti-a2"
      "jti-r2").result = .error (.unauthorized "Invalid or expired refresh token") ∧
    (AuthService.logout demoHandler demoState demoAccessTok 1200).fst =
      .error (.unauthorized "Invalid refresh token") := by
  refine ⟨rfl, rfl, ?_⟩
  have main := wrong_token_type_unauthorized demoHandler demoState honestRefreshTok
    demoAccessTok 1200 "jti-a2" "jti-r2" rfl rfl rfl
    (by intro e he; injection he with h2; rw [← h2]; decide)
    (by intro j hj; rfl)
    rfl rfl rfl
    (by intro e he; injection he with h2; rw [← h2]; decide)
    (by intro j hj; rfl)
  exact ⟨main.1, main.2.1, main.2.2⟩

/-- C10: when `verify_access_token` accepts a bearer token but the payload's
`user_id` claim — with `sub` as the Python-`or` fallback — is falsy or does not
parse as a UUID, `get_current_user` fails with Unauthorized, so no user is ever
resolved from such a token. -/
theorem guard_rejects_non_uuid_identity (h : JWTHandler) (s : AppState)
    (t : SignedToken) (now : Nat) (payload : Claims)
    (hok : (AuthService.verify_access_token h s t now).fst = .ok payload)
    (hbad : ∀ raw, (match strTruthy payload.user_id with
        | some x => some x
        | none => strTruthy payload.sub) = some raw → pyUUID raw = none) :
    ∃ d, (dependencies.get_current_user h s t now).fst =
      .error (.unauthorized d) := by
  simp only [dependencies.get_current_user, hok]
  unfold dependencies.load_user_from_payload
  cases hraw : (match strTruthy payload.user_id with
      | some x => some x
      | none => strTruthy payload.sub) with
  | none => exact ⟨_, rfl⟩
  | some raw =>
      refine ⟨"Invalid token: malformed user_id", ?_⟩
      simp [hbad raw hraw]

/-- Witness for C10: the access token `authenticate` issues for alice carries
`user_id = "alice"`, which is not UUID-parseable, so the guard rejects it. -/
theorem guard_rejects_non_uuid_identity_witness :
    (AuthService.verify_access_token demoHandler demoState demoAccessTok 1200).fst =
      .ok demoAccessTok.claims ∧
    pyUUID "alice" = none ∧
    ∃ d, (dependencies.get_current_user demoHandler demoState demoAccessTok 1200).fst =
      .error (.unauthorized d) := by
  refine ⟨rfl, by decide, ?_⟩
  refine guard_rejects_non_uuid_identity demoHandler demoState demoAccessTok 1200
    demoAccessTok.claims rfl ?_
  intro raw hraw
  have h1 : some "alice" = some raw := hraw
  injection h1 with h2
  rw [← h2]
  decide

/-- Updating the cache of a backing state leaves the user table unchanged. -/
theorem AppState.users_update_cache (s : AppState) (c : CacheStore) :
    ({ s with cache := c } : AppState).users = s.users := rfl

/-- A correctly signed, untampered, unexpired token of the expected type whose
jti is not currently blacklisted passes `verify_token` with its claim set. -/
theorem verify_token_valid (h : JWTHandler) (t : SignedToken) (expected : String)
    (now : Nat) (cache : CacheStore)
    (hsig : t.sigKey = h.secret_key) (hint : t.sigClaims = t.claims)
    (htyp : t.claims.typ = some expected)
    (hexp : ∀ e, t.claims.exp = some e → ¬ e < now)
    (hrev : ∀ j, strTruthy t.claims.jti = some j →
      (AuthService.is_blacklisted cache j (now * 1000)).fst = false) :
    (AuthService.verify_token h t expected now cache).fst = some t.claims := by
  have hdec : h.decode_token t now = some t.claims := by
    unfold JWTHandler.decode_token
    rw [if_pos ⟨hsig, hint⟩]
    cases he : t.claims.exp with
    | none => rfl
    | some e => simp [hexp e he]
  unfold AuthService.verify_token
  rw [hdec]
  simp only [htyp, if_pos]
  cases hj : strTruthy t.claims.jti with
  | none => simp
  | some j => simp [hrev j hj]

/-- C5: `_blacklist_token` — the sole revocation routine, invoked by both
`refresh_tokens` and `logout`, always with token_type "refresh" — applied to a
refresh token issued at `t0` and revoked at any `t1 ≥ t0` writes a marker whose
expiry instant (`timestamp + ttl_minutes` minutes, in ms) is no earlier than
the token's own expiry instant (`exp` seconds, in ms): the TTL is the full
configured refresh lifetime plus a 60-minute buffer, which covers the token's
remaining lifetime with margin. -/
theorem revocation_marker_outlives_token (h : JWTHandler) (s : AppState)
    (user_id : String) (username : Option String) (scopes : List String)
    (t0 t1 : Nat) (jti : String) (hjti : jti ≠ "") (ht : t0 ≤ t1) :
    ∃ e, ((AuthService.blacklist_token h s
        (h.create_refresh_token user_id username scopes t0 jti)
        "refresh" t1).fst.cache.find? (fun e2 => e2.cache_key = "blacklist:" ++ jti))
        = some e ∧
      (t0 + h.refresh_token_expire_days * 86400) * 1000 ≤
        e.timestamp + e.ttl_minutes * 60 * 1000 := by
  refine ⟨{ cache_key := "blacklist:" ++ jti, data := [("revoked", true)]
            timestamp := t1 * 1000
            ttl_minutes := h.get_token_ttl_minutes "refresh" + 60 }, ?_, ?_⟩
  · simp [AuthService.blacklist_token, JWTHandler.extract_jti,
      JWTHandler.create_refresh_token, strTruthy, hjti, CacheRepository.set,
      List.find?_cons]
  · have hval : JWTHandler.get_token_ttl_minutes h "refresh" =
        h.refresh_token_expire_days * 24 * 60 := by
      unfold JWTHandler.get_token_ttl_minutes
      rw [if_neg (by decide), if_pos rfl]
    simp only [hval]
    omega

/-- Witness for C5: revoking alice's refresh token (issued at 1000) at 2000
leaves a marker whose expiry is past the token's expiry. -/
theorem revocation_marker_outlives_token_witness :
    ("jti-r1" : String) ≠ "" ∧ (1000 : Nat) ≤ 2000 ∧
    ∃ e, ((AuthService.blacklist_token demoHandler demoState
        (demoHandler.create_refresh_token "alice" (some aliceId) [] 1000 "jti-r1")
        "refresh" 2000).fst.cache.find?
        (fun e2 => e2.cache_key = "blacklist:" ++ "jti-r1")) = some e ∧
      (1000 + demoHandler.refresh_token_expire_days * 86400) * 1000 ≤
        e.timestamp + e.ttl_minutes * 60 * 1000 := by
  exact ⟨by decide, by omega,
    revocation_marker_outlives_token demoHandler demoState "alice" (some aliceId) []
      1000 2000 "jti-r1" (by decide) (by omega)⟩

/-- C6: a structurally valid, unexpired, unrevoked refresh token whose `sub`
names a user that is missing from the store or inactive makes `refresh_tokens`
fail with Forbidden (403), not Unauthorized. -/
theorem refresh_inactive_user_forbidden (h : JWTHandler) (s : AppState)
    (t : SignedToken) (now : Nat) (jA jR : String) (name : String)
    (hsig : t.sigKey = h.secret_key) (hint : t.sigClaims = t.claims)
    (htyp : t.claims.typ = some "refresh")
    (hexp : ∀ e, t.claims.exp = some e → ¬ e < now)
    (hrev : ∀ j, strTruthy t.claims.jti = some j →
      (AuthService.is_blacklisted s.cache j (now * 1000)).fst = false)
    (hsub : strTruthy t.claims.sub = some name)
    (huser : ∀ u, UsersRepository.get_by_username s.users name = some u →
      u.is_active = false) :
    (AuthService.refresh_tokens h s t now jA jR).result =
      .error (.forbidden "User not found or inactive") := by
  have hv := verify_token_valid h t "refresh" now s.cache hsig hint htyp hexp hrev
  have hfst : (AuthService.verify_token h t "refresh" now s.cache).fst
      = some t.claims := hv
  unfold AuthService.refresh_tokens
  simp only [hfst, hsub, AppState.users_update_cache]
  cases hu : UsersRepository.get_by_username s.users name with
  | none => simp
  | some u => simp [huser u hu]

/-- Backing state with no users at all, for the C6 witness. -/
def emptyState : AppState := { users := [], cache := [] }

/-- Witness for C6: alice's valid refresh token presented against a store that
no longer contains alice is rejected with Forbidden. -/
theorem refresh_inactive_user_forbidden_witness :
    honestRefreshTok.sigKey = demoHandler.secret_key ∧
    honestRefreshTok.claims.typ = some "refresh" ∧
    (AuthService.refresh_tokens demoHandler emptyState honestRefreshTok 1200
      "jti-a2" "jti-r2").result = .error (.forbidden "User not found or inactive") := by
  refine ⟨rfl, rfl, ?_⟩
  refine refresh_inactive_user_forbidden demoHandler emptyState honestRefreshTok 1200
    "jti-a2" "jti-r2" "alice" rfl rfl rfl
    (by intro e he; injection he with h2; rw [← h2]; decide)
    (by intro j hj; rfl)
    rfl ?_
  intro u hu
  simp [UsersRepository.get_by_username, emptyState] at hu

/-- A payload accepted by `verify_token` is the presented token's claim set,
and the token's signature is genuine. -/
theorem verify_token_some (h : JWTHandler) (t : SignedToken) (expected : String)
    (now : Nat) (cache : CacheStore) (p : Claims)
    (hp : (AuthService.verify_token h t expected now cache).fst = some p) :
    p = t.claims ∧ t.sigKey = h.secret_key ∧ t.sigClaims = t.claims := by
  unfold AuthService.verify_token at hp
  split at hp
  next hd => exact absurd hp (by simp)
  next q hd =>
    obtain ⟨h1, h2, hq⟩ := decode_token_some h t now q hd
    split at hp
    · split at hp
      next j hj =>
        by_cases hb : (AuthService.is_blacklisted cache j (now * 1000)).fst = true
        · exact absurd hp (by simp [hb])
        · have hqp : q = p := by simpa [hb] using hp
          exact ⟨hqp ▸ hq, h1, h2⟩
      next =>
        have hqp : q = p := by simpa using hp
        exact ⟨hqp ▸ hq, h1, h2⟩
    · exact absurd hp (by simp)

/-- C3: whenever `refresh_tokens` returns a new token pair, its side-effect
trace is exactly the revocation-marker write for the presented token's jti
followed by the two issuance events — so every issuance is strictly preceded by
the revocation write (revoke-then-issue, never issue-then-revoke). -/
theorem refresh_revokes_before_issuing (h : JWTHandler) (s : AppState)
    (t : SignedToken) (now : Nat) (jA jR : String) (tok : Token) (j : String)
    (hok : (AuthService.refresh_tokens h s t now jA jR).result = .ok tok)
    (hjti : strTruthy t.claims.jti = some j) :
    (AuthService.refresh_tokens h s t now jA jR).events =
      [.revokeMarkerWrite j, .tokenIssued "access", .tokenIssued "refresh"] ∧
    (∀ k kind, (AuthService.refresh_tokens h s t now jA jR).events.get? k =
        some (.tokenIssued kind) →
      ∃ m, m < k ∧ (AuthService.refresh_tokens h s t now jA jR).events.get? m =
        some (.revokeMarkerWrite j)) := by
  rcases hvp : AuthService.verify_token h t "refresh" now s.cache with ⟨vfst, vsnd⟩
  simp only [AuthService.refresh_tokens, hvp] at hok ⊢
  cases vfst with
  | none => exact absurd hok (by simp)
  | some payload =>
      obtain ⟨hpc, hsig, hint⟩ := verify_token_some h t "refresh" now s.cache payload
        (by rw [hvp])
      subst hpc
      simp only [] at hok ⊢
      cases hsub : strTruthy t.claims.sub with
      | none => simp only [hsub] at hok; exact absurd hok (by simp)
      | some name =>
          simp only [hsub] at hok ⊢
          cases hu : UsersRepository.get_by_username s.users name with
          | none => simp only [hu] at hok; exact absurd hok (by simp)
          | some u =>
              simp only [hu] at hok ⊢
              by_cases hact : u.is_active
              · rw [if_neg (show ¬ ¬ (u.is_active = true) by simp [hact])] at hok ⊢
                have hevents : (AuthService.blacklist_token h
                    { s with cache := vsnd } t "refresh" now).snd =
                    [AuthEvent.revokeMarkerWrite j] := by
                  unfold AuthService.blacklist_token
                  rw [show h.extract_jti t = t.claims.jti by
                    unfold JWTHandler.extract_jti; rw [if_pos ⟨hsig, hint⟩]]
                  rw [hjti]
                refine ⟨by rw [hevents]; rfl, ?_⟩
                intro k kind hk
                rcases k with _ | _ | _ | k
                · rw [hevents] at hk; simp at hk
                · exact ⟨0, by omega, by rw [hevents]; rfl⟩
                · exact ⟨0, by omega, by rw [hevents]; rfl⟩
                · rw [hevents] at hk; simp [List.get?] at hk
              · rw [if_pos (show ¬ (u.is_active = true) by simp [hact])] at hok
                exact absurd hok (by simp)

/-- Blacklisting an honestly issued refresh token with a truthy jti writes
exactly the marker row `blacklist:{jti} ↦ revoked` with the full configured
refresh TTL plus the 60-minute buffer. -/
theorem blacklist_token_honest (h : JWTHandler) (s : AppState) (user_id : String)
    (username : Option String) (scopes : List String) (t0 t1 : Nat) (jti : String)
    (hjti : jti ≠ "") :
    AuthService.blacklist_token h s
      (h.create_refresh_token user_id username scopes t0 jti) "refresh" t1 =
      ({ s with cache := (CacheRepository.set s.cache ("blacklist:" ++ jti)
          [("revoked", true)] (h.get_token_ttl_minutes "refresh" + 60) (t1 * 1000)) },
        [AuthEvent.revokeMarkerWrite jti]) := by
  unfold AuthService.blacklist_token
  rw [show h.extract_jti (h.create_refresh_token user_id username scopes t0 jti)
      = some jti from by
    unfold JWTHandler.extract_jti JWTHandler.create_refresh_token
    rw [if_pos ⟨rfl, rfl⟩]]
  simp [strTruthy, hjti]

/-- After the revocation marker for a refresh token's jti has been written at
`t1 ≥ t0`, verification of that token fails at every later instant `t2`: either
the marker is still live and the blacklist check trips, or the marker has
expired — but the marker's TTL (full refresh lifetime + 60 min) outlives the
token, so the token itself is then expired and decode fails. -/
theorem verify_after_blacklist (h : JWTHandler) (c : CacheStore) (user_id : String)
    (username : Option String) (scopes : List String) (t0 t1 t2 : Nat) (jR : String)
    (hjR : jR ≠ "") (ht01 : t0 ≤ t1) (ht12 : t1 ≤ t2) :
    (AuthService.verify_token h (h.create_refresh_token user_id username scopes t0 jR)
      "refresh" t2 (CacheRepository.set c ("blacklist:" ++ jR) [("revoked", true)]
        (h.get_token_ttl_minutes "refresh" + 60) (t1 * 1000))).fst = none := by
  have httl : h.get_token_ttl_minutes "refresh" = h.refresh_token_expire_days * 24 * 60 := by
    unfold JWTHandler.get_token_ttl_minutes
    rw [if_neg (by decide), if_pos rfl]
  by_cases hexp2 : t0 + h.refresh_token_expire_days * 86400 < t2
  · have hdec : h.decode_token
        (h.create_refresh_token user_id username scopes t0 jR) t2 = none := by
      unfold JWTHandler.decode_token JWTHandler.create_refresh_token
      rw [if_pos ⟨rfl, rfl⟩]
      simp [hexp2]
    unfold AuthService.verify_token
    rw [hdec]
  · have hdec : h.decode_token
        (h.create_refresh_token user_id username scopes t0 jR) t2 =
        some (h.create_refresh_token user_id username scopes t0 jR).claims := by
      unfold JWTHandler.decode_token JWTHandler.create_refresh_token
      rw [if_pos ⟨rfl, rfl⟩]
      simp [hexp2]
    have hjti : strTruthy
        (h.create_refresh_token user_id username scopes t0 jR).claims.jti = some jR := by
      simp [JWTHandler.create_refresh_token, strTruthy, hjR]
    have hget : (CacheRepository.get
        (CacheRepository.set c ("blacklist:" ++ jR) [("revoked", true)]
          (h.get_token_ttl_minutes "refresh" + 60) (t1 * 1000))
        ("blacklist:" ++ jR) (t2 * 1000)).fst = some [("revoked", true)] := by
      have hlive : ¬ (t2 * 1000 >
          t1 * 1000 + (h.get_token_ttl_minutes "refresh" + 60) * 60 * 1000) := by
        rw [httl]
        omega
      unfold CacheRepository.get CacheRepository.set
      rw [List.find?_cons_of_pos _ (by simp)]
      simp only []
      rw [if_neg hlive]
    have hbl : (AuthService.is_blacklisted
        (CacheRepository.set c ("blacklist:" ++ jR) [("revoked", true)]
          (h.get_token_ttl_minutes "refresh" + 60) (t1 * 1000)) jR (t2 * 1000)).fst
        = true := by
      unfold AuthService.is_blacklisted
      simp only [hget]
      rfl
    unfold AuthService.verify_token
    rw [hdec]
    simp only [hjti]
    rw [show (h.create_refresh_token user_id username scopes t0 jR).claims.typ
      = some "refresh" from rfl]
    simp [hbl]

/-- Both token-consuming operations reject the revoked refresh token at every
instant `t2 ≥ t1` once its marker is in the cache (in any state carrying that
cache). -/
theorem refresh_after_revocation (h : JWTHandler) (sx : AppState) (c : CacheStore)
    (user_id : String) (username : Option String) (scopes : List String)
    (t0 t1 t2 : Nat) (jR jA2 jR2 : String)
    (hjR : jR ≠ "") (ht01 : t0 ≤ t1) (ht12 : t1 ≤ t2)
    (hcache : sx.cache = CacheRepository.set c ("blacklist:" ++ jR)
      [("revoked", true)] (h.get_token_ttl_minutes "refresh" + 60) (t1 * 1000)) :
    (AuthService.refresh_tokens h sx
      (h.create_refresh_token user_id username scopes t0 jR) t2 jA2 jR2).result =
      .error (.unauthorized "Invalid or expired refresh token") ∧
    (AuthService.logout h sx
      (h.create_refresh_token user_id username scopes t0 jR) t2).fst =
      .error (.unauthorized "Invalid refresh token") := by
  have hv : (AuthService.verify_token h
      (h.create_refresh_token user_id username scopes t0 jR) "refresh" t2
      sx.cache).fst = none := by
    rw [hcache]
    exact verify_after_blacklist h c user_id username scopes t0 t1 t2 jR hjR ht01 ht12
  rcases hvp : AuthService.verify_token h
      (h.create_refresh_token user_id username scopes t0 jR) "refresh" t2 sx.cache
    with ⟨vf, vs⟩
  have hvf : vf = none := by rw [hvp] at hv; exact hv
  subst hvf
  constructor
  · simp only [AuthService.refresh_tokens, hvp]
  · simp only [AuthService.logout, hvp]

/-- A fresh (unblacklisted), unexpired refresh token issued to an active,
still-resolvable user is exchanged by `refresh_tokens` for a new pair, with the
revocation marker for its jti written into the post-state cache. -/
theorem refresh_success_char (h : JWTHandler) (s : AppState) (u : User)
    (t0 t1 : Nat) (jR jA1 jR1 : String)
    (hact : u.is_active = true)
    (huname : UsersRepository.get_by_username s.users u.username = some u)
    (hnempty : u.username ≠ "") (hjR : jR ≠ "")
    (ht1 : t1 ≤ t0 + h.refresh_token_expire_days * 86400)
    (hfresh : (AuthService.is_blacklisted s.cache jR (t1 * 1000)).fst = false) :
    AuthService.refresh_tokens h s
      (h.create_refresh_token u.username (some u.id) [] t0 jR) t1 jA1 jR1 =
      { result := .ok
          { access_token := h.create_access_token u.username (some u.username)
              [u.role] t1 jA1
            refresh_token := h.create_refresh_token u.username (some u.username)
              [] t1 jR1
            token_type := "bearer"
            expires_in := h.access_token_expire_minutes * 60 }
        state := { users := s.users
                   cache := (CacheRepository.set
                     (AuthService.verify_token h
                       (h.create_refresh_token u.username (some u.id) [] t0 jR)
                       "refresh" t1 s.cache).snd
                     ("blacklist:" ++ jR) [("revoked", true)]
                     (h.get_token_ttl_minutes "refresh" + 60) (t1 * 1000)) }
        events := [.revokeMarkerWrite jR, .tokenIssued "access",
          .tokenIssued "refresh"] } := by
  have hvr : (AuthService.verify_token h
      (h.create_refresh_token u.username (some u.id) [] t0 jR) "refresh" t1
      s.cache).fst = some (h.create_refresh_token u.username (some u.id) [] t0
        jR).claims := by
    refine verify_token_valid h _ "refresh" t1 s.cache rfl rfl rfl ?_ ?_
    · intro e he
      injection he with h2
      omega
    · intro j hj
      have hj2 : some jR = some j := by
        rw [show strTruthy (h.create_refresh_token u.username (some u.id) [] t0
          jR).claims.jti = some jR from by simp [JWTHandler.create_refresh_token,
            strTruthy, hjR]] at hj
        exact hj
      injection hj2 with hj3
      rw [← hj3]
      exact hfresh
  have hsub : strTruthy (h.create_refresh_token u.username (some u.id) [] t0
      jR).claims.sub = some u.username := by
    simp [JWTHandler.create_refresh_token, strTruthy, hnempty]
  rcases hvp : AuthService.verify_token h
      (h.create_refresh_token u.username (some u.id) [] t0 jR) "refresh" t1 s.cache
    with ⟨vf, vs⟩
  have hvf : vf = some (h.create_refresh_token u.username (some u.id) [] t0
      jR).claims := by rw [hvp] at hvr; exact hvr
  subst hvf
  simp only [AuthService.refresh_tokens, hvp]
  simp only [hsub, huname]
  rw [if_neg (show ¬ ¬ (u.is_active = true) by simp [hact])]
  rw [blacklist_token_honest h _ u.username (some u.id) [] t0 t1 jR hjR]
  rfl

/-- A fresh, unexpired refresh token is accepted by `logout`, which writes the
revocation marker for its jti. -/
theorem logout_success_char (h : JWTHandler) (s : AppState) (user_id : String)
    (username : Option String) (scopes : List String) (t0 t1 : Nat) (jR : String)
    (hjR : jR ≠ "")
    (ht1 : t1 ≤ t0 + h.refresh_token_expire_days * 86400)
    (hfresh : (AuthService.is_blacklisted s.cache jR (t1 * 1000)).fst = false) :
    AuthService.logout h s
      (h.create_refresh_token user_id username scopes t0 jR) t1 =
      (.ok (), { users := s.users
                 cache := (CacheRepository.set
                   (AuthService.verify_token h
                     (h.create_refresh_token user_id username scopes t0 jR)
                     "refresh" t1 s.cache).snd
                   ("blacklist:" ++ jR) [("revoked", true)]
                   (h.get_token_ttl_minutes "refresh" + 60) (t1 * 1000)) }) := by
  have hvr : (AuthService.verify_token h
      (h.create_refresh_token user_id username scopes t0 jR) "refresh" t1
      s.cache).fst = some (h.create_refresh_token user_id username scopes t0
        jR).claims := by
    refine verify_token_valid h _ "refresh" t1 s.cache rfl rfl rfl ?_ ?_
    · intro e he
      injection he with h2
      omega
    · intro j hj
      have hj2 : some jR = some j := by
        rw [show strTruthy (h.create_refresh_token user_id username scopes t0
          jR).claims.jti = some jR from by simp [JWTHandler.create_refresh_token,
            strTruthy, hjR]] at hj
        exact hj
      injection hj2 with hj3
      rw [← hj3]
      exact hfresh
  rcases hvp : AuthService.verify_token h
      (h.create_refresh_token user_id username scopes t0 jR) "refresh" t1 s.cache
    with ⟨vf, vs⟩
  have hvf : vf = some (h.create_refresh_token user_id username scopes t0
      jR).claims := by rw [hvp] at hvr; exact hvr
  subst hvf
  simp only [AuthService.logout, hvp]
  rw [blacklist_token_honest h _ user_id username scopes t0 t1 jR hjR]

/-- The token pair the witness refresh at time 2000 produces (the new tokens
carry the old payload's `user_id` claim — the username, after the swap at
issuance — in their `username` claim). -/
def refreshedPair : Token :=
  { access_token := demoHandler.create_access_token "alice" (some "alice") ["user"]
      2000 "jti-a2"
    refresh_token := demoHandler.create_refresh_token "alice" (some "alice") []
      2000 "jti-r2"
    token_type := "bearer"
    expires_in := demoHandler.access_token_expire_minutes * 60 }

/-- Witness for C3: a concrete successful refresh of alice's token emits the
revocation write before the two issuance events. -/
theorem refresh_revokes_before_issuing_witness :
    (AuthService.refresh_tokens demoHandler demoState honestRefreshTok 2000 "jti-a2"
      "jti-r2").result = .ok refreshedPair ∧
    strTruthy honestRefreshTok.claims.jti = some "jti-r1" ∧
    (AuthService.refresh_tokens demoHandler demoState honestRefreshTok 2000 "jti-a2"
      "jti-r2").events = [.revokeMarkerWrite "jti-r1", .tokenIssued "access",
        .tokenIssued "refresh"] := by
  have hok : (AuthService.refresh_tokens demoHandler demoState honestRefreshTok 2000
      "jti-a2" "jti-r2").result = .ok refreshedPair := rfl
  have hjti : strTruthy honestRefreshTok.claims.jti = some "jti-r1" := rfl
  exact ⟨hok, hjti, (refresh_revokes_before_issuing demoHandler demoState
    honestRefreshTok 2000 "jti-a2" "jti-r2" refreshedPair "jti-r1" hok hjti).1⟩

/-- C1: a refresh token issued by `authenticate` to an active user is accepted
by the first `refresh_tokens` call presenting it; once consumed by that refresh
— or revoked by `logout` — every later `refresh_tokens` or `logout` call
presenting the same token fails with Unauthorized, at every later instant:
while the revocation marker lives the blacklist check rejects it, and by the
time the marker could lapse (full refresh TTL + 60 min after revocation) the
token itself has expired, so it is permanently unusable. -/
theorem refresh_token_single_use (h : JWTHandler) (s : AppState) (u : User)
    (ident pw : String) (t0 t1 : Nat) (jA jR : String)
    (hlook : AuthService.lookup_user s.users ident = some u)
    (hpw : verify_password pw u.password_hash = true)
    (hact : u.is_active = true)
    (huname : UsersRepository.get_by_username s.users u.username = some u)
    (hnempty : u.username ≠ "") (hjR : jR ≠ "")
    (ht01 : t0 ≤ t1)
    (hunexp : t1 ≤ t0 + h.refresh_token_expire_days * 86400)
    (hfresh : (AuthService.is_blacklisted s.cache jR (t1 * 1000)).fst = false) :
    (AuthService.authenticate h s ident pw t0 jA jR).fst = .ok
      { access_token := h.create_access_token u.username (some u.id) [u.role] t0 jA
        refresh_token := h.create_refresh_token u.username (some u.id) [] t0 jR
        token_type := "bearer"
        expires_in := h.access_token_expire_minutes * 60 } ∧
    (∀ jA1 jR1, ∃ tok, (AuthService.refresh_tokens h s
        (h.create_refresh_token u.username (some u.id) [] t0 jR) t1 jA1 jR1).result
        = .ok tok) ∧
    (∀ jA1 jR1 t2 jA2 jR2, t1 ≤ t2 →
      (AuthService.refresh_tokens h
          (AuthService.refresh_tokens h s
            (h.create_refresh_token u.username (some u.id) [] t0 jR) t1 jA1
            jR1).state
          (h.create_refresh_token u.username (some u.id) [] t0 jR) t2 jA2
          jR2).result
        = .error (.unauthorized "Invalid or expired refresh token") ∧
      (AuthService.logout h
          (AuthService.refresh_tokens h s
            (h.create_refresh_token u.username (some u.id) [] t0 jR) t1 jA1
            jR1).state
          (h.create_refresh_token u.username (some u.id) [] t0 jR) t2).fst
        = .error (.unauthorized "Invalid refresh token")) ∧
    (AuthService.logout h s
      (h.create_refresh_token u.username (some u.id) [] t0 jR) t1).fst = .ok () ∧
    (∀ t2 jA2 jR2, t1 ≤ t2 →
      (AuthService.refresh_tokens h
          (AuthService.logout h s
            (h.create_refresh_token u.username (some u.id) [] t0 jR) t1).snd
          (h.create_refresh_token u.username (some u.id) [] t0 jR) t2 jA2
          jR2).result
        = .error (.unauthorized "Invalid or expired refresh token") ∧
      (AuthService.logout h
          (AuthService.logout h s
            (h.create_refresh_token u.username (some u.id) [] t0 jR) t1).snd
          (h.create_refresh_token u.username (some u.id) [] t0 jR) t2).fst
        = .error (.unauthorized "Invalid refresh token")) := by
  refine ⟨?auth, ?first, ?afterRefresh, ?logoutOk, ?afterLogout⟩
  case auth =>
    unfold AuthService.authenticate
    rw [hlook]
    simp only []
    rw [if_neg (show ¬ ¬ (verify_password pw u.password_hash = true) by simp [hpw])]
    rw [if_neg (show ¬ ¬ (u.is_active = true) by simp [hact])]
  case first =>
    intro jA1 jR1
    exact ⟨_, by
      rw [refresh_success_char h s u t0 t1 jR jA1 jR1 hact huname hnempty hjR
        hunexp hfresh]⟩
  case afterRefresh =>
    intro jA1 jR1 t2 jA2 jR2 ht12
    rw [refresh_success_char h s u t0 t1 jR jA1 jR1 hact huname hnempty hjR hunexp
      hfresh]
    exact refresh_after_revocation h _ _ u.username (some u.id) [] t0 t1 t2 jR jA2
      jR2 hjR ht01 ht12 rfl
  case logoutOk =>
    rw [logout_success_char h s u.username (some u.id) [] t0 t1 jR hjR hunexp hfresh]
  case afterLogout =>
    intro t2 jA2 jR2 ht12
    rw [logout_success_char h s u.username (some u.id) [] t0 t1 jR hjR hunexp hfresh]
    exact refresh_after_revocation h _ _ u.username (some u.id) [] t0 t1 t2 jR jA2
      jR2 hjR ht01 ht12 rfl

/-- Witness for C1: the full concrete scenario — login as alice at 1000,
refresh at 2000 succeeds, the same token is then rejected by refresh and logout
at 3000; alternatively logout at 2000 succeeds and the token is then rejected
by both at 3000. -/
theorem refresh_token_single_use_witness :
    (AuthService.authenticate demoHandler demoState "alice@x.com" "Str0ng!Pass" 1000
      "jti-a1" "jti-r1").fst = .ok
        { access_token := demoAccessTok
          refresh_token := honestRefreshTok
          token_type := "bearer"
          expires_in := demoHandler.access_token_expire_minutes * 60 } ∧
    (∃ tok, (AuthService.refresh_tokens demoHandler demoState honestRefreshTok 2000
      "jti-a2" "jti-r2").result = .ok tok) ∧
    ((AuthService.refresh_tokens demoHandler
        (AuthService.refresh_tokens demoHandler demoState honestRefreshTok 2000
          "jti-a2" "jti-r2").state honestRefreshTok 3000 "jti-a3" "jti-r3").result =
      .error (.unauthorized "Invalid or expired refresh token")) ∧
    ((AuthService.logout demoHandler
        (AuthService.refresh_tokens demoHandler demoState honestRefreshTok 2000
          "jti-a2" "jti-r2").state honestRefreshTok 3000).fst =
      .error (.unauthorized "Invalid refresh token")) ∧
    ((AuthService.logout demoHandler demoState honestRefreshTok 2000).fst = .ok ()) ∧
    ((AuthService.refresh_tokens demoHandler
        (AuthService.logout demoHandler demoState honestRefreshTok 2000).snd
        honestRefreshTok 3000 "jti-a3" "jti-r3").result =
      .error (.unauthorized "Invalid or expired refresh token")) ∧
    ((AuthService.logout demoHandler
        (AuthService.logout demoHandler demoState honestRefreshTok 2000).snd
        honestRefreshTok 3000).fst = .error (.unauthorized "Invalid refresh token")) := by
  have main := refresh_token_single_use demoHandler demoState alice "alice@x.com"
    "Str0ng!Pass" 1000 2000 "jti-a1" "jti-r1" (by decide) (by decide) (by decide)
    (by decide) (by decide) (by decide) (by omega) (by decide) (by decide)
  exact ⟨main.1, main.2.1 "jti-a2" "jti-r2",
    (main.2.2.1 "jti-a2" "jti-r2" 3000 "jti-a3" "jti-r3" (by omega)).1,
    (main.2.2.1 "jti-a2" "jti-r2" 3000 "jti-a3" "jti-r3" (by omega)).2,
    main.2.2.2.1,
    (main.2.2.2.2 3000 "jti-a3" "jti-r3" (by omega)).1,
    (main.2.2.2.2 3000 "jti-a3" "jti-r3" (by omega)).2⟩
